import Mathlib

/-!
# Stratosphere knowledge-bank chatbot: the chat controller and the ingestion script

A shallow embedding of `src/src/App.jsx` (the `ChatBot` component: the LangChain
pipeline `chain` and the submit handler `handleSubmit`) and of `src/index.js`
(the ingestion script), followed by the properties proved about them.

Conventions of the embedding:

* React state (`messages`, `input`, `isLoading`) and the ref `convHistory` are
  the fields of one record; an event handler reads and writes the current record.
* Every call that leaves the program (the chat model, the retriever) goes
  through an `Env` of response functions and is appended to `calls`; a response
  may depend on all calls made before it, so a model sampled at temperature 0.5
  may answer the same prompt differently on two occasions. A call is one
  invocation of the client object by the pipeline; what the client library does
  inside one invocation is not described.
* A thrown JavaScript value is an `Except.error`; `try / catch / finally` is a
  `match` on the result.
* `utils/combineDocuments` and `utils/formatConvHistory` are imported by
  `App.jsx` but are not among the source files; they are fields of `Env`.
-/

namespace Stratosphere

/-! ## Data model -/

/-- A thrown JavaScript error, represented by its message text. -/
abbrev Error := String

/-- A retrieved fragment (LangChain `Document`), reduced to its text. -/
structure Document where
  pageContent : String
  deriving DecidableEq, Repr

/-- One call to an external service made by the chat pipeline. -/
inductive Call where
  /-- `llm` invoked with a rendered prompt. -/
  | llm (prompt : String)
  /-- `retriever` invoked with a query string. -/
  | retriever (query : String)
  deriving DecidableEq, Repr

/-- The arguments of one `console.error` call, an error standing by its message. -/
abbrev ConsoleLine := List String

/-- An entry of the `messages` state: `{ text, isUser }`. -/
structure Message where
  text : String
  isUser : Bool
  deriving DecidableEq, Repr

/-- The state of the `ChatBot` component (`App.jsx` lines 11-15) together with
what the outside world has seen of it: the external calls made so far and the
lines written to the browser console. -/
structure ChatBot where
  messages : List Message
  input : String
  isLoading : Bool
  convHistory : List String
  calls : List Call
  console : List ConsoleLine
  deriving DecidableEq, Repr

/-- The collaborators of the chat pipeline. `llm` is `ChatOpenAI` followed by
`StringOutputParser` (prompt text in, completion text out), `retriever` is
`vectorStore.asRetriever()` of `utils/retriever.js`; both see the calls made
before them. `formatConvHistory` and `combineDocuments` are the two helper
modules that `App.jsx` imports. Each of them may throw. -/
structure Env where
  formatConvHistory : List String → Except Error String
  llm : List Call → String → Except Error String
  retriever : List Call → String → Except Error (List Document)
  combineDocuments : List Document → Except Error String

/-- A computation that may throw and that extends the list of external calls. -/
abbrev Run (α : Type) := List Call → Except Error α × List Call

/-! ## `String.prototype.trim` -/

/-- ECMAScript `WhiteSpace` and `LineTerminator` code points, the characters
that `String.prototype.trim` strips. -/
def isWhiteSpace (c : Char) : Bool :=
  c.toNat ∈ [0x9, 0xA, 0xB, 0xC, 0xD, 0x20, 0xA0, 0x1680, 0x2028, 0x2029,
    0x202F, 0x205F, 0x3000, 0xFEFF] || (0x2000 ≤ c.toNat && c.toNat ≤ 0x200A)

/-- The method `trim()` of a JavaScript string: leading and trailing white space removed. -/
def trim (s : String) : String :=
  ⟨((s.data.dropWhile isWhiteSpace).reverse.dropWhile isWhiteSpace).reverse⟩

/-! ## The LangChain pipeline (`App.jsx` lines 17-63) -/

/-- The input object of `chain.invoke`: `{ question, conv_history }`. -/
structure ChainInput where
  question : String
  conv_history : String
  deriving DecidableEq, Repr

/-- The output of the first step of `chain`:
`{ standalone_question, original_input }`. -/
structure RewriterOutput where
  standalone_question : String
  original_input : ChainInput
  deriving DecidableEq, Repr

/-- The output of the second step of `chain`, the fields of `answerPrompt`:
`{ context, question, conv_history }`. -/
structure AnswerInput where
  context : String
  question : String
  conv_history : String
  deriving DecidableEq, Repr

/-- The template `standaloneQuestionPrompt` (lines 23-28) with its two fields substituted. -/
def standaloneQuestionPrompt (i : ChainInput) : String :=
  "\n        Given some conversation history (if any) and a question, convert the question to a standalone question. \n        conversation history: "
    ++ i.conv_history ++ "\n        question: " ++ i.question
    ++ " \n        standalone question:"

/-- The template `answerPrompt` (lines 30-36) with its three fields substituted. -/
def answerPrompt (i : AnswerInput) : String :=
  "\n        You are a helpful and enthusiastic support bot for Stratosphere ID. Answer questions based on the context and conversation history.\n        context: "
    ++ i.context ++ "\n        conversation history: " ++ i.conv_history
    ++ "\n        question: " ++ i.question ++ "\n        answer:"

/-- One invocation of `.pipe(llm).pipe(new StringOutputParser())` on a rendered
prompt: the call is recorded, the completion text or the thrown error returned. -/
def invokeLlm (env : Env) (prompt : String) : Run String :=
  fun calls => (env.llm calls prompt, calls ++ [Call.llm prompt])

/-- The runnable `standaloneQuestionChain` (lines 38-40). -/
def standaloneQuestionChain (env : Env) (i : ChainInput) : Run String :=
  invokeLlm env (standaloneQuestionPrompt i)

/-- The runnable `retrieverChain` (lines 42-46): select `standalone_question`,
call `retriever`, then `combineDocuments` on what it returned. -/
def retrieverChain (env : Env) (prevResult : RewriterOutput) : Run String :=
  fun calls =>
    let query := prevResult.standalone_question
    match env.retriever calls query with
    | .error e => (.error e, calls ++ [Call.retriever query])
    | .ok docs => (env.combineDocuments docs, calls ++ [Call.retriever query])

/-- The runnable `answerChain` (lines 48-50). -/
def answerChain (env : Env) (i : AnswerInput) : Run String :=
  invokeLlm env (answerPrompt i)

/-- The runnable `chain` (lines 52-63), a `RunnableSequence` of three steps:
the map `{ standalone_question, original_input }`, the map
`{ context, question, conv_history }`, and `answerChain`. A step that throws
ends the sequence. -/
def chain (env : Env) (i : ChainInput) : Run String :=
  fun calls =>
    match standaloneQuestionChain env i calls with
    | (.error e, calls1) => (.error e, calls1)
    | (.ok standalone, calls1) =>
      let step1 : RewriterOutput :=
        { standalone_question := standalone, original_input := i }
      match retrieverChain env step1 calls1 with
      | (.error e, calls2) => (.error e, calls2)
      | (.ok context, calls2) =>
        let step2 : AnswerInput :=
          { context := context
            question := step1.original_input.question
            conv_history := step1.original_input.conv_history }
        answerChain env step2 calls2

/-! ## The submit handler (`App.jsx` lines 72-102) -/

/-- The fixed text shown when the pipeline throws (line 96). -/
def fallbackMessage : String :=
  "Sorry, I'm having trouble connecting. Please try again later."

/-- The guard of line 74: `!input.trim() || isLoading`. -/
def rejected (s : ChatBot) : Bool :=
  trim s.input == "" || s.isLoading

/-- Lines 76-81, the part of `handleSubmit` that runs before the first `await`:
the input is cleared, the loading flag set, the user's message shown. This is
the state of the component while the submission is in flight. -/
def submitting (s : ChatBot) : ChatBot :=
  { s with
    input := ""
    isLoading := true
    messages := s.messages ++ [{ text := trim s.input, isUser := true }] }

/-- Lines 84-87, the awaited expression of the `try` block:
`chain.invoke({ question, conv_history: formatConvHistory(convHistory.current) })`. -/
def invokeChain (env : Env) (question : String) (convHistory : List String) : Run String :=
  fun calls =>
    match env.formatConvHistory convHistory with
    | .error e => (.error e, calls)
    | .ok history => chain env { question := question, conv_history := history } calls

/-- Lines 83-101: what `try / catch / finally` does with the outcome of the
awaited call, on the in-flight state `s` of the submission of `question`. -/
def settle (question : String) (s : ChatBot) (outcome : Except Error String × List Call) :
    ChatBot :=
  match outcome with
  | (.ok response, calls) =>
    { s with
      calls := calls
      convHistory := s.convHistory ++ [question, response]
      messages := s.messages ++ [{ text := response, isUser := false }]
      isLoading := false }
  | (.error _, calls) =>
    { s with
      calls := calls
      messages := s.messages ++ [{ text := fallbackMessage, isUser := false }]
      isLoading := false }

/-- The handler `handleSubmit` (lines 72-102), run from the submit event to the
end of its `finally` block. -/
def handleSubmit (env : Env) (s : ChatBot) : ChatBot :=
  if rejected s then s
  else
    let question := trim s.input
    let s1 := submitting s
    settle question s1 (invokeChain env question s1.convHistory s1.calls)

/-- The `onChange` handler of the text field (line 136): `setInput(e.target.value)`. -/
def setInput (value : String) (s : ChatBot) : ChatBot :=
  { s with input := value }

/-- The initial state of the component (lines 11-15). -/
def initial : ChatBot :=
  { messages := [], input := "", isLoading := false, convHistory := [],
    calls := [], console := [] }

/-! ## The ingestion script (`index.js`) -/

/-- The three variables of `process.env` that the script reads (lines 18-20),
after `dotenv/config` has loaded the `.env` file; `none` is `undefined`. -/
structure ProcessEnv where
  VITE_SUPABASE_KEY : Option String
  VITE_SUPABASE_URL : Option String
  VITE_OPENAI_API_KEY : Option String
  deriving DecidableEq, Repr

/-- JavaScript falsiness of a value that is a string or `undefined`: the `!x` of line 22. -/
def falsy : Option String → Bool
  | none => true
  | some v => v == ""

/-- The options object given to `new RecursiveCharacterTextSplitter` (lines 11-15). -/
structure TextSplitterParams where
  chunkSize : Nat
  chunkOverlap : Nat
  separators : List String
  deriving DecidableEq, Repr

/-- The options of lines 12-14. -/
def splitterParams : TextSplitterParams :=
  { chunkSize := 1000, chunkOverlap := 50, separators := ["\n\n", "\n", " ", ""] }

/-- The value returned by `createClient(sbUrl, sbApiKey)`. -/
structure SupabaseClient where
  url : String
  key : String
  deriving DecidableEq, Repr

/-- One step of the script that touches the file system, the splitter library
or a remote service, with its arguments. -/
inductive IngestStep where
  /-- `readFile(path, encoding)`, line 9. -/
  | readFile (path encoding : String)
  /-- `splitter.createDocuments(texts)`, line 16. -/
  | createDocuments (params : TextSplitterParams) (texts : List String)
  /-- `createClient(url, key)`, line 26. -/
  | createClient (url key : String)
  /-- `SupabaseVectorStore.fromDocuments(docs, new OpenAIEmbeddings({ openAIApiKey }),
  { client, tableName })`, lines 28-35: the chunks are embedded and inserted. -/
  | fromDocuments (docs : List Document) (openAIApiKey : String) (client : SupabaseClient)
      (tableName : String)
  deriving DecidableEq, Repr

/-- The collaborators of the ingestion script; each of them may throw. -/
structure IngestEnv where
  readFile : String → String → Except Error String
  createDocuments : TextSplitterParams → List String → Except Error (List Document)
  createClient : String → String → Except Error SupabaseClient
  fromDocuments : List Document → String → SupabaseClient → String → Except Error Unit

/-- What a run of the script leaves behind: the steps taken, in order, and the
lines written with `console.error`. -/
structure IngestResult where
  steps : List IngestStep
  console : List ConsoleLine
  deriving DecidableEq, Repr

/-- The message of the error thrown on line 23. -/
def missingEnvMessage : String := "Missing required environment variables"

/-- The body of the `try` block (lines 9-35): its outcome and the steps it took. -/
def ingestTry (penv : ProcessEnv) (env : IngestEnv) : Except Error Unit × List IngestStep :=
  let steps1 := [IngestStep.readFile "./stratosphere.txt" "utf-8"]
  match env.readFile "./stratosphere.txt" "utf-8" with
  | .error e => (.error e, steps1)
  | .ok text =>
    let steps2 := steps1 ++ [IngestStep.createDocuments splitterParams [text]]
    match env.createDocuments splitterParams [text] with
    | .error e => (.error e, steps2)
    | .ok output =>
      let sbApiKey := penv.VITE_SUPABASE_KEY
      let sbUrl := penv.VITE_SUPABASE_URL
      let openAIApiKey := penv.VITE_OPENAI_API_KEY
      if falsy sbApiKey || falsy sbUrl || falsy openAIApiKey then
        (.error missingEnvMessage, steps2)
      else
        let steps3 := steps2 ++ [IngestStep.createClient (sbUrl.getD "") (sbApiKey.getD "")]
        match env.createClient (sbUrl.getD "") (sbApiKey.getD "") with
        | .error e => (.error e, steps3)
        | .ok client =>
          (env.fromDocuments output (openAIApiKey.getD "") client "documents",
            steps3 ++ [IngestStep.fromDocuments output (openAIApiKey.getD "") client "documents"])

/-- The whole script (lines 8-39): the `try` block, and in `catch` the call
`console.error("Error:", error)`. -/
def ingest (penv : ProcessEnv) (env : IngestEnv) : IngestResult :=
  match ingestTry penv env with
  | (.ok _, steps) => { steps := steps, console := [] }
  | (.error e, steps) => { steps := steps, console := [["Error:", e]] }

/-- Whether a step embeds or inserts chunks, or opens the connection used for it. -/
def IngestStep.touchesIndex : IngestStep → Bool
  | .createClient _ _ => true
  | .fromDocuments _ _ _ _ => true
  | _ => false

/-! ## Concrete sessions and environments used to exercise the theorems -/

/-- A session in which the user has typed a question, with white space around it. -/
def asking : ChatBot := setInput "  What is it?  " initial

/-- An environment in which every collaborator answers. -/
def answeringEnv : Env where
  formatConvHistory := fun turns => .ok (String.intercalate "\n" turns)
  llm := fun calls _ =>
    if calls.length % 3 = 0 then .ok "What is Stratosphere ID?"
    else .ok "It is an identity platform."
  retriever := fun _ _ => .ok [{ pageContent := "Stratosphere ID is an identity platform." }]
  combineDocuments := fun docs => .ok (String.intercalate "\n\n" (docs.map Document.pageContent))

/-- An environment in which the rewriting call answers and the answering call
of the chat model throws. -/
def answerDownEnv : Env where
  formatConvHistory := fun turns => .ok (String.intercalate "\n" turns)
  llm := fun calls _ =>
    if calls = [] then .ok "What is Stratosphere ID?" else .error "503 Service Unavailable"
  retriever := fun _ _ => .ok [{ pageContent := "Stratosphere ID is an identity platform." }]
  combineDocuments := fun docs => .ok (String.intercalate "\n\n" (docs.map Document.pageContent))

/-- An environment in which the chat model throws at once. -/
def unreachableEnv : Env where
  formatConvHistory := fun turns => .ok (String.intercalate "\n" turns)
  llm := fun _ _ => .error "401 Incorrect API key provided"
  retriever := fun _ _ => .ok []
  combineDocuments := fun _ => .ok ""

/-- A process environment in which the embedding-service key is not set. -/
def noOpenAIKey : ProcessEnv :=
  { VITE_SUPABASE_KEY := some "sb-key"
    VITE_SUPABASE_URL := some "https://example.supabase.co"
    VITE_OPENAI_API_KEY := none }

/-- Ingestion collaborators that all succeed; the source file holds two short paragraphs. -/
def workingIngestEnv : IngestEnv where
  readFile := fun _ _ => .ok "A.\n\nB."
  createDocuments := fun _ _ => .ok [{ pageContent := "A." }, { pageContent := "B." }]
  createClient := fun url key => .ok { url := url, key := key }
  fromDocuments := fun _ _ _ _ => .ok ()

/-! ## Properties of the chat controller -/

/-- The trimmed string is empty exactly when every character is white space. -/
theorem trim_eq_empty_iff (s : String) :
    trim s = "" ↔ ∀ c ∈ s.data, isWhiteSpace c = true := by
  have key : ∀ l : List Char, (l.dropWhile isWhiteSpace).reverse.dropWhile isWhiteSpace = [] ↔
      ∀ c ∈ l, isWhiteSpace c = true := by
    intro l
    rw [List.dropWhile_eq_nil_iff]
    constructor
    · intro h
      by_contra hne
      push_neg at hne
      obtain ⟨c, hc, hcw⟩ := hne
      have hne' : l.dropWhile isWhiteSpace ≠ [] := by
        intro h0
        rw [List.dropWhile_eq_nil_iff] at h0
        exact hcw (h0 c hc)
      have hhead := List.head_dropWhile_not isWhiteSpace l hne'
      have hmem : (l.dropWhile isWhiteSpace).head hne' ∈ (l.dropWhile isWhiteSpace).reverse :=
        List.mem_reverse.mpr (List.head_mem hne')
      have := h _ hmem
      simp [this] at hhead
    · intro h c hc
      have hc' : c ∈ l.dropWhile isWhiteSpace := List.mem_reverse.mp hc
      exact h c ((List.dropWhile_sublist _).subset hc')
  rw [← key s.data]
  simp only [trim]
  constructor
  · intro h
    have := congrArg String.data h
    simpa using this
  · intro h
    rw [h]
    rfl

/-- An accepted submission is the in-flight state settled with the outcome of the awaited call. -/
theorem handleSubmit_of_accepted (env : Env) (s : ChatBot) (h : rejected s = false) :
    handleSubmit env s
      = settle (trim s.input) (submitting s)
          (invokeChain env (trim s.input) s.convHistory s.calls) := by
  simp [handleSubmit, h, submitting]

/-- While a submission is in flight the loading flag is set. -/
theorem submitting_isLoading (s : ChatBot) : (submitting s).isLoading = true := rfl

/-- When history formatting, rewriting, retrieval and combination succeed, the
awaited call is the answering call of the chat model. -/
theorem invokeChain_of_context (env : Env) (q : String) (hist : List String)
    (calls : List Call) (h sq ctx : String) (docs : List Document)
    (hf : env.formatConvHistory hist = .ok h)
    (hr : env.llm calls (standaloneQuestionPrompt ⟨q, h⟩) = .ok sq)
    (hd : env.retriever (calls ++ [Call.llm (standaloneQuestionPrompt ⟨q, h⟩)]) sq = .ok docs)
    (hc : env.combineDocuments docs = .ok ctx) :
    invokeChain env q hist calls
      = (env.llm (calls ++ [Call.llm (standaloneQuestionPrompt ⟨q, h⟩), Call.retriever sq])
            (answerPrompt ⟨ctx, q, h⟩),
         calls ++ [Call.llm (standaloneQuestionPrompt ⟨q, h⟩), Call.retriever sq,
                   Call.llm (answerPrompt ⟨ctx, q, h⟩)]) := by
  simp [invokeChain, chain, standaloneQuestionChain, retrieverChain, answerChain, invokeLlm,
    hf, hr, hd, hc]

/-- The awaited call throws `e` exactly when one of its stages does: history
formatting, the rewriting call, retrieval, combination, or the answering call,
the stages before it having succeeded. -/
theorem invokeChain_error_iff (env : Env) (q : String) (hist : List String)
    (calls : List Call) (e : Error) :
    (invokeChain env q hist calls).1 = .error e ↔
      env.formatConvHistory hist = .error e
      ∨ (∃ h, env.formatConvHistory hist = .ok h
          ∧ env.llm calls (standaloneQuestionPrompt ⟨q, h⟩) = .error e)
      ∨ (∃ h sq, env.formatConvHistory hist = .ok h
          ∧ env.llm calls (standaloneQuestionPrompt ⟨q, h⟩) = .ok sq
          ∧ env.retriever (calls ++ [Call.llm (standaloneQuestionPrompt ⟨q, h⟩)]) sq
            = .error e)
      ∨ (∃ h sq docs, env.formatConvHistory hist = .ok h
          ∧ env.llm calls (standaloneQuestionPrompt ⟨q, h⟩) = .ok sq
          ∧ env.retriever (calls ++ [Call.llm (standaloneQuestionPrompt ⟨q, h⟩)]) sq
            = .ok docs
          ∧ env.combineDocuments docs = .error e)
      ∨ (∃ h sq docs ctx, env.formatConvHistory hist = .ok h
          ∧ env.llm calls (standaloneQuestionPrompt ⟨q, h⟩) = .ok sq
          ∧ env.retriever (calls ++ [Call.llm (standaloneQuestionPrompt ⟨q, h⟩)]) sq
            = .ok docs
          ∧ env.combineDocuments docs = .ok ctx
          ∧ env.llm (calls ++ [Call.llm (standaloneQuestionPrompt ⟨q, h⟩), Call.retriever sq])
              (answerPrompt ⟨ctx, q, h⟩) = .error e) := by
  cases hf : env.formatConvHistory hist with
  | error e0 => simp [invokeChain, hf]
  | ok h =>
    cases hr : env.llm calls (standaloneQuestionPrompt ⟨q, h⟩) with
    | error e0 =>
      simp [invokeChain, chain, standaloneQuestionChain, invokeLlm, hf, hr]
    | ok sq =>
      cases hd : env.retriever (calls ++ [Call.llm (standaloneQuestionPrompt ⟨q, h⟩)]) sq with
      | error e0 =>
        simp [invokeChain, chain, standaloneQuestionChain, retrieverChain, invokeLlm, hf, hr, hd]
      | ok docs =>
        cases hc : env.combineDocuments docs with
        | error e0 =>
          simp [invokeChain, chain, standaloneQuestionChain, retrieverChain, invokeLlm,
            hf, hr, hd, hc]
        | ok ctx =>
          rw [invokeChain_of_context env q hist calls h sq ctx docs hf hr hd hc]
          simp [hr, hd, hc]

/-- The calls recorded by `settle` are those of the outcome. -/
theorem settle_calls (q : String) (s : ChatBot) (o : Except Error String × List Call) :
    (settle q s o).calls = o.2 := by
  rcases o with ⟨r, c⟩
  cases r <;> rfl

/-- The function `settle` clears the loading flag on both branches (`finally`, line 100). -/
theorem settle_isLoading (q : String) (s : ChatBot) (o : Except Error String × List Call) :
    (settle q s o).isLoading = false := by
  rcases o with ⟨r, c⟩
  cases r <;> rfl

/-- The function `settle` never writes to the console. -/
theorem settle_console (q : String) (s : ChatBot) (o : Except Error String × List Call) :
    (settle q s o).console = s.console := by
  rcases o with ⟨r, c⟩
  cases r <;> rfl

/-- Claim C1: when the awaited pipeline call of an accepted submission throws
(whichever stage threw), the visible log gains the user's message followed by
the fixed fallback text as a non-user message, and `convHistory` is what it was
before the submission. -/
theorem handleSubmit_failure_appends_fallback (env : Env) (s : ChatBot) (e : Error)
    (hacc : rejected s = false)
    (hfail : (invokeChain env (trim s.input) s.convHistory s.calls).1 = Except.error e) :
    (handleSubmit env s).messages
        = s.messages ++ [{ text := trim s.input, isUser := true },
            { text := "Sorry, I'm having trouble connecting. Please try again later.",
              isUser := false }]
      ∧ (handleSubmit env s).convHistory = s.convHistory := by
  rw [handleSubmit_of_accepted env s hacc]
  rcases hr : invokeChain env (trim s.input) s.convHistory s.calls with ⟨r, c⟩
  rw [hr] at hfail
  simp only at hfail
  subst hfail
  simp [settle, submitting, fallbackMessage]

/-- Witness of C1: the answering call throws in `answerDownEnv`. -/
theorem handleSubmit_failure_appends_fallback_witness :
    (handleSubmit answerDownEnv asking).messages
        = [{ text := "What is it?", isUser := true },
            { text := "Sorry, I'm having trouble connecting. Please try again later.",
              isUser := false }]
      ∧ (handleSubmit answerDownEnv asking).convHistory = [] :=
  handleSubmit_failure_appends_fallback answerDownEnv asking "503 Service Unavailable"
    (by decide) (by rfl)

/-- Claim C2: when the awaited pipeline call of an accepted submission returns
the answer `a`, `convHistory` afterwards is the history before followed by the
trimmed input and then `a`. -/
theorem handleSubmit_success_extends_history (env : Env) (s : ChatBot) (a : String)
    (hacc : rejected s = false)
    (hok : (invokeChain env (trim s.input) s.convHistory s.calls).1 = Except.ok a) :
    (handleSubmit env s).convHistory = s.convHistory ++ [trim s.input, a] := by
  rw [handleSubmit_of_accepted env s hacc]
  rcases hr : invokeChain env (trim s.input) s.convHistory s.calls with ⟨r, c⟩
  rw [hr] at hok
  simp only at hok
  subst hok
  simp [settle, submitting]

/-- Witness of C2: a second question asked after a first exchange. -/
theorem handleSubmit_success_extends_history_witness :
    (handleSubmit answeringEnv
        (setInput " And who runs it? " (handleSubmit answeringEnv asking))).convHistory
      = ["What is it?", "It is an identity platform."]
          ++ ["And who runs it?", "It is an identity platform."] :=
  handleSubmit_success_extends_history answeringEnv
    (setInput " And who runs it? " (handleSubmit answeringEnv asking))
    "It is an identity platform." (by decide) (by rfl)

/-- Claim C3: in an accepted submission whose history formatting returns `h`,
the first call is the chat model on the rewriting prompt filled with `h`, the
formatting of `convHistory` as it stood before the submission, and with the
trimmed input; when that call returns `sq`, the next call is the retriever on
`sq`, and every retriever call of the submission has `sq` as its query; when it
throws, the retriever is not called. -/
theorem retriever_receives_standalone_question (env : Env) (s : ChatBot) (h : String)
    (hacc : rejected s = false)
    (hf : env.formatConvHistory s.convHistory = .ok h) :
    (∀ sq, env.llm s.calls (standaloneQuestionPrompt ⟨trim s.input, h⟩) = .ok sq →
      ∃ rest, (handleSubmit env s).calls
          = s.calls ++ [Call.llm (standaloneQuestionPrompt ⟨trim s.input, h⟩),
              Call.retriever sq] ++ rest
        ∧ ∀ query, Call.retriever query
              ∈ [Call.llm (standaloneQuestionPrompt ⟨trim s.input, h⟩),
                  Call.retriever sq] ++ rest → query = sq)
    ∧ (∀ e, env.llm s.calls (standaloneQuestionPrompt ⟨trim s.input, h⟩) = .error e →
      (handleSubmit env s).calls
        = s.calls ++ [Call.llm (standaloneQuestionPrompt ⟨trim s.input, h⟩)]) := by
  rw [handleSubmit_of_accepted env s hacc, settle_calls]
  constructor
  · intro sq hr
    cases hd : env.retriever
        (s.calls ++ [Call.llm (standaloneQuestionPrompt ⟨trim s.input, h⟩)]) sq with
    | error e =>
      refine ⟨[], ?_, ?_⟩
      · simp [invokeChain, chain, standaloneQuestionChain, retrieverChain, invokeLlm,
          hf, hr, hd]
      · intro query hq
        simpa using hq
    | ok docs =>
      cases hc : env.combineDocuments docs with
      | error e =>
        refine ⟨[], ?_, ?_⟩
        · simp [invokeChain, chain, standaloneQuestionChain, retrieverChain, invokeLlm,
            hf, hr, hd, hc]
        · intro query hq
          simpa using hq
      | ok ctx =>
        refine ⟨[Call.llm (answerPrompt ⟨ctx, trim s.input, h⟩)], ?_, ?_⟩
        · rw [invokeChain_of_context env _ _ _ h sq ctx docs hf hr hd hc]
          simp
        · intro query hq
          simpa using hq
  · intro e hr
    simp [invokeChain, chain, standaloneQuestionChain, invokeLlm, hf, hr]

/-- Witness of C3: a first question in `answeringEnv`; the retriever is asked
the rewritten question, not the question typed. -/
theorem retriever_receives_standalone_question_witness :
    ∃ rest, (handleSubmit answeringEnv asking).calls
        = [] ++ [Call.llm (standaloneQuestionPrompt ⟨"What is it?", ""⟩),
            Call.retriever "What is Stratosphere ID?"] ++ rest
      ∧ ∀ query, Call.retriever query
            ∈ [Call.llm (standaloneQuestionPrompt ⟨"What is it?", ""⟩),
                Call.retriever "What is Stratosphere ID?"] ++ rest →
          query = "What is Stratosphere ID?" :=
  (retriever_receives_standalone_question answeringEnv asking "" (by decide) (by rfl)).1
    "What is Stratosphere ID?" (by rfl)

/-- Claim C4: in an accepted submission whose history formatting returns `h`,
whose rewriting returns `sq`, whose retrieval returns `docs` and whose
combination returns `ctx`, the last call is the chat model on the answering
prompt with `context = ctx`, `question` the trimmed input and `conv_history = h`,
and the outcome of the awaited call is the outcome of that call, unchanged. -/
theorem answer_prompt_fields (env : Env) (s : ChatBot) (h sq ctx : String)
    (docs : List Document)
    (hacc : rejected s = false)
    (hf : env.formatConvHistory s.convHistory = .ok h)
    (hr : env.llm s.calls (standaloneQuestionPrompt ⟨trim s.input, h⟩) = .ok sq)
    (hd : env.retriever
        (s.calls ++ [Call.llm (standaloneQuestionPrompt ⟨trim s.input, h⟩)]) sq = .ok docs)
    (hc : env.combineDocuments docs = .ok ctx) :
    (handleSubmit env s).calls
        = s.calls ++ [Call.llm (standaloneQuestionPrompt
              { question := trim s.input, conv_history := h }),
            Call.retriever sq,
            Call.llm (answerPrompt
              { context := ctx, question := trim s.input, conv_history := h })]
      ∧ (invokeChain env (trim s.input) s.convHistory s.calls).1
        = env.llm (s.calls ++ [Call.llm (standaloneQuestionPrompt ⟨trim s.input, h⟩),
              Call.retriever sq])
            (answerPrompt { context := ctx, question := trim s.input, conv_history := h })
      ∧ ∀ a, env.llm (s.calls ++ [Call.llm (standaloneQuestionPrompt ⟨trim s.input, h⟩),
              Call.retriever sq])
            (answerPrompt { context := ctx, question := trim s.input, conv_history := h })
            = .ok a →
          (handleSubmit env s).messages
            = s.messages ++ [{ text := trim s.input, isUser := true },
                { text := a, isUser := false }] := by
  rw [handleSubmit_of_accepted env s hacc, settle_calls,
    invokeChain_of_context env _ _ _ h sq ctx docs hf hr hd hc]
  refine ⟨rfl, rfl, ?_⟩
  intro a ha
  simp [settle, submitting, ha]

/-- Witness of C4: a first question in `answeringEnv`. -/
theorem answer_prompt_fields_witness :
    (handleSubmit answeringEnv asking).calls
      = [] ++ [Call.llm (standaloneQuestionPrompt
            { question := "What is it?", conv_history := "" }),
          Call.retriever "What is Stratosphere ID?",
          Call.llm (answerPrompt
            { context := "Stratosphere ID is an identity platform."
              question := "What is it?", conv_history := "" })] :=
  (answer_prompt_fields answeringEnv asking "" "What is Stratosphere ID?"
    "Stratosphere ID is an identity platform."
    [{ pageContent := "Stratosphere ID is an identity platform." }]
    (by decide) (by rfl) (by rfl) (by rfl) (by rfl)).1

/-- Claim C5: a submission made while the loading flag is set, or with an input
that is empty or made of white space only, leaves the whole state as it was:
messages, history, input, loading flag, and the list of external calls, to
which no call is added. -/
theorem handleSubmit_ignored (env : Env) (s : ChatBot)
    (h : s.isLoading = true ∨ ∀ c ∈ s.input.data, isWhiteSpace c = true) :
    handleSubmit env s = s := by
  have hrej : rejected s = true := by
    rcases h with h | h
    · simp [rejected, h]
    · simp [rejected, (trim_eq_empty_iff s.input).mpr h]
  simp [handleSubmit, hrej]

/-- Witness of C5: a second submit event while the first question is in flight. -/
theorem handleSubmit_ignored_witness :
    (submitting asking).isLoading = true
      ∧ handleSubmit answeringEnv (setInput "again" (submitting asking))
        = setInput "again" (submitting asking) :=
  ⟨rfl, handleSubmit_ignored answeringEnv (setInput "again" (submitting asking))
    (Or.inl (by decide))⟩

/-- Claim C6: an accepted submission ends with the loading flag cleared, whatever
the outcome of the pipeline; once the user has typed a non-blank `value`, the
next submission is accepted, runs the pipeline on the trimmed `value` with the
history and calls left by the first one, shows the user's message and a reply,
and ends with the loading flag cleared again. -/
theorem session_usable_after_submission (env next : Env) (s : ChatBot) (value : String)
    (hacc : rejected s = false) (hvalue : trim value ≠ "") :
    (handleSubmit env s).isLoading = false
      ∧ rejected (setInput value (handleSubmit env s)) = false
      ∧ handleSubmit next (setInput value (handleSubmit env s))
        = settle (trim value) (submitting (setInput value (handleSubmit env s)))
            (invokeChain next (trim value) (handleSubmit env s).convHistory
              (handleSubmit env s).calls)
      ∧ (∃ reply, (handleSubmit next (setInput value (handleSubmit env s))).messages
          = (handleSubmit env s).messages
              ++ [{ text := trim value, isUser := true }, { text := reply, isUser := false }])
      ∧ (handleSubmit next (setInput value (handleSubmit env s))).isLoading = false := by
  have h1 : (handleSubmit env s).isLoading = false := by
    rw [handleSubmit_of_accepted env s hacc, settle_isLoading]
  have h2 : rejected (setInput value (handleSubmit env s)) = false := by
    simp [rejected, setInput, h1, hvalue]
  have h3 := handleSubmit_of_accepted next _ h2
  refine ⟨h1, h2, h3, ?_, ?_⟩
  · rw [h3]
    rcases invokeChain next (trim (setInput value (handleSubmit env s)).input)
      (setInput value (handleSubmit env s)).convHistory
      (setInput value (handleSubmit env s)).calls with ⟨r, c⟩
    cases r with
    | error e => exact ⟨fallbackMessage, by simp [settle, submitting, setInput]⟩
    | ok a => exact ⟨a, by simp [settle, submitting, setInput]⟩
  · rw [h3, settle_isLoading]

/-- Witness of C6: the answering call throws on the first question; the
question typed next is accepted and gets a reply. -/
theorem session_usable_after_submission_witness :
    (handleSubmit answerDownEnv asking).isLoading = false
      ∧ rejected (setInput "What is Stratosphere ID?" (handleSubmit answerDownEnv asking))
        = false
      ∧ (∃ reply, (handleSubmit answeringEnv
            (setInput "What is Stratosphere ID?" (handleSubmit answerDownEnv asking))).messages
          = (handleSubmit answerDownEnv asking).messages
              ++ [{ text := trim "What is Stratosphere ID?", isUser := true },
                { text := reply, isUser := false }])
      ∧ (handleSubmit answeringEnv
          (setInput "What is Stratosphere ID?" (handleSubmit answerDownEnv asking))).isLoading
        = false :=
  have run := session_usable_after_submission answerDownEnv answeringEnv asking
    "What is Stratosphere ID?" (by decide) (by decide)
  ⟨run.1, run.2.1, run.2.2.2.1, run.2.2.2.2⟩

/-- Claim C7, as the code has it: when the awaited pipeline call of an accepted
submission throws `e`, nothing is written to the console, and the state
afterwards is the state before with the input cleared, the user's message and
the fixed fallback text appended to the visible log, and the calls made
recorded; `e` appears nowhere in it. -/
theorem failure_is_not_logged (env : Env) (s : ChatBot) (e : Error)
    (hacc : rejected s = false)
    (hfail : (invokeChain env (trim s.input) s.convHistory s.calls).1 = Except.error e) :
    (handleSubmit env s).console = s.console
      ∧ handleSubmit env s
        = { s with
            input := ""
            isLoading := false
            messages := s.messages ++ [{ text := trim s.input, isUser := true },
              { text := fallbackMessage, isUser := false }]
            calls := (invokeChain env (trim s.input) s.convHistory s.calls).2 } := by
  rw [handleSubmit_of_accepted env s hacc]
  rcases hr : invokeChain env (trim s.input) s.convHistory s.calls with ⟨r, c⟩
  rw [hr] at hfail
  simp only at hfail
  subst hfail
  simp [settle, submitting]

/-- Witness of C7 as amended: the chat model rejects the API key. -/
theorem failure_is_not_logged_witness :
    (handleSubmit unreachableEnv asking).console = asking.console :=
  (failure_is_not_logged unreachableEnv asking "401 Incorrect API key provided"
    (by decide) (by rfl)).1

/-- Counterexample to C7 as stated: the chat model throws
`401 Incorrect API key provided` during an accepted submission, and afterwards
the console holds no line at all, so the error has not been logged. -/
theorem failure_is_not_logged_counterexample :
    rejected asking = false
      ∧ (invokeChain unreachableEnv (trim asking.input) asking.convHistory asking.calls).1
        = Except.error "401 Incorrect API key provided"
      ∧ (handleSubmit unreachableEnv asking).console = [] :=
  ⟨by decide, by rfl, by decide⟩

/-- Claim C9: the external calls of an accepted submission, case by case. If
history formatting throws, no call is made. Otherwise the chat model is called
once on the rewriting prompt; if that throws, nothing follows. Otherwise the
retriever is called once on the rewritten question; if it throws, or if
combining its documents throws, nothing follows. Otherwise the chat model is
called once more, on the answering prompt, and nothing follows. -/
theorem calls_form_one_sequential_run (env : Env) (s : ChatBot)
    (hacc : rejected s = false) :
    (∀ e, env.formatConvHistory s.convHistory = .error e →
      (handleSubmit env s).calls = s.calls)
    ∧ (∀ h e, env.formatConvHistory s.convHistory = .ok h →
      env.llm s.calls (standaloneQuestionPrompt ⟨trim s.input, h⟩) = .error e →
      (handleSubmit env s).calls
        = s.calls ++ [Call.llm (standaloneQuestionPrompt ⟨trim s.input, h⟩)])
    ∧ (∀ h sq e, env.formatConvHistory s.convHistory = .ok h →
      env.llm s.calls (standaloneQuestionPrompt ⟨trim s.input, h⟩) = .ok sq →
      env.retriever (s.calls ++ [Call.llm (standaloneQuestionPrompt ⟨trim s.input, h⟩)]) sq
        = .error e →
      (handleSubmit env s).calls
        = s.calls ++ [Call.llm (standaloneQuestionPrompt ⟨trim s.input, h⟩),
            Call.retriever sq])
    ∧ (∀ h sq docs e, env.formatConvHistory s.convHistory = .ok h →
      env.llm s.calls (standaloneQuestionPrompt ⟨trim s.input, h⟩) = .ok sq →
      env.retriever (s.calls ++ [Call.llm (standaloneQuestionPrompt ⟨trim s.input, h⟩)]) sq
        = .ok docs →
      env.combineDocuments docs = .error e →
      (handleSubmit env s).calls
        = s.calls ++ [Call.llm (standaloneQuestionPrompt ⟨trim s.input, h⟩),
            Call.retriever sq])
    ∧ (∀ h sq docs ctx, env.formatConvHistory s.convHistory = .ok h →
      env.llm s.calls (standaloneQuestionPrompt ⟨trim s.input, h⟩) = .ok sq →
      env.retriever (s.calls ++ [Call.llm (standaloneQuestionPrompt ⟨trim s.input, h⟩)]) sq
        = .ok docs →
      env.combineDocuments docs = .ok ctx →
      (handleSubmit env s).calls
        = s.calls ++ [Call.llm (standaloneQuestionPrompt ⟨trim s.input, h⟩),
            Call.retriever sq, Call.llm (answerPrompt ⟨ctx, trim s.input, h⟩)]) := by
  rw [handleSubmit_of_accepted env s hacc, settle_calls]
  refine ⟨?_, ?_, ?_, ?_, ?_⟩
  · intro e hf
    simp [invokeChain, hf]
  · intro h e hf hr
    simp [invokeChain, chain, standaloneQuestionChain, invokeLlm, hf, hr]
  · intro h sq e hf hr hd
    simp [invokeChain, chain, standaloneQuestionChain, retrieverChain, invokeLlm, hf, hr, hd]
  · intro h sq docs e hf hr hd hc
    simp [invokeChain, chain, standaloneQuestionChain, retrieverChain, invokeLlm, hf, hr, hd,
      hc]
  · intro h sq docs ctx hf hr hd hc
    rw [invokeChain_of_context env _ _ _ h sq ctx docs hf hr hd hc]

/-- Witness of C9: once the answering call has thrown, the calls of the
submission are the rewriting call, the retrieval and that one answering call. -/
theorem calls_form_one_sequential_run_witness :
    (handleSubmit answerDownEnv asking).calls
      = [] ++ [Call.llm (standaloneQuestionPrompt ⟨"What is it?", ""⟩),
          Call.retriever "What is Stratosphere ID?",
          Call.llm (answerPrompt
            ⟨"Stratosphere ID is an identity platform.", "What is it?", ""⟩)] :=
  (calls_form_one_sequential_run answerDownEnv asking (by decide)).2.2.2.2 ""
    "What is Stratosphere ID?" [{ pageContent := "Stratosphere ID is an identity platform." }]
    "Stratosphere ID is an identity platform." (by rfl) (by rfl) (by rfl) (by rfl)

/-! ## Properties of the ingestion script -/

/-- Claim C8, as the code has it: when one of the three credentials is unset or
empty, the script first reads the source file and splits it; if both succeed it
then throws the missing-credentials error, which `catch` writes to the console;
if reading throws, that error is written instead. In every case no client is
created and nothing is embedded or inserted. -/
theorem ingest_missing_credentials (penv : ProcessEnv) (env : IngestEnv)
    (hmiss : (falsy penv.VITE_SUPABASE_KEY || falsy penv.VITE_SUPABASE_URL
      || falsy penv.VITE_OPENAI_API_KEY) = true) :
    (∀ step ∈ (ingest penv env).steps, step.touchesIndex = false)
      ∧ (∀ text output, env.readFile "./stratosphere.txt" "utf-8" = .ok text →
          env.createDocuments splitterParams [text] = .ok output →
          ingest penv env
            = { steps := [IngestStep.readFile "./stratosphere.txt" "utf-8",
                  IngestStep.createDocuments splitterParams [text]]
                console := [["Error:", "Missing required environment variables"]] })
      ∧ (∀ e, env.readFile "./stratosphere.txt" "utf-8" = .error e →
          ingest penv env
            = { steps := [IngestStep.readFile "./stratosphere.txt" "utf-8"]
                console := [["Error:", e]] }) := by
  refine ⟨?_, ?_, ?_⟩
  · intro step hstep
    unfold ingest ingestTry at hstep
    cases hread : env.readFile "./stratosphere.txt" "utf-8" with
    | error e =>
      simp [hread] at hstep
      subst hstep
      rfl
    | ok text =>
      cases hsplit : env.createDocuments splitterParams [text] with
      | error e =>
        simp [hread, hsplit] at hstep
        rcases hstep with h | h <;> subst h <;> rfl
      | ok output =>
        simp [hread, hsplit, hmiss] at hstep
        rcases hstep with h | h <;> subst h <;> rfl
  · intro text output hread hsplit
    simp [ingest, ingestTry, hread, hsplit, hmiss, missingEnvMessage]
  · intro e hread
    simp [ingest, ingestTry, hread]

/-- Witness of C8 as amended: the embedding-service key is not set. -/
theorem ingest_missing_credentials_witness :
    ingest noOpenAIKey workingIngestEnv
      = { steps := [IngestStep.readFile "./stratosphere.txt" "utf-8",
            IngestStep.createDocuments splitterParams ["A.\n\nB."]]
          console := [["Error:", "Missing required environment variables"]] } :=
  (ingest_missing_credentials noOpenAIKey workingIngestEnv (by decide)).2.1
    "A.\n\nB." [{ pageContent := "A." }, { pageContent := "B." }] (by rfl) (by rfl)

/-- Counterexample to C8 as stated: with the embedding-service key unset, the
run has read the source file and split it, so the failure does not come before
the file is read or chunked. -/
theorem ingest_missing_credentials_counterexample :
    falsy noOpenAIKey.VITE_OPENAI_API_KEY = true
      ∧ IngestStep.readFile "./stratosphere.txt" "utf-8"
        ∈ (ingest noOpenAIKey workingIngestEnv).steps
      ∧ IngestStep.createDocuments splitterParams ["A.\n\nB."]
        ∈ (ingest noOpenAIKey workingIngestEnv).steps :=
  ⟨by decide, by decide, by decide⟩

end Stratosphere
